import Mathlib

/-!
# Verification of the physics worker / coordinator subsystem

Shallow embedding of the physics coordination subsystem of the repository:

* `src/physics/types.ts` — message and descriptor types;
* the `PhysicsWorker` class (worker file) — authoritative physics state,
  live-body registry, flat sync buffers, message handling;
* `src/physics/PhysicsWorld.ts` — the coordinator: renderable-object
  registry, id allocation, dt clamping, sync application.

Numbers are modelled as rationals (`ℚ`); the claims under study concern
exact data flow (clamping, registry ordering, buffer sizing, component-wise
copies), none of which involves floating-point rounding.  JavaScript `Map`s
are modelled as association lists in insertion order (a JS `Map` iterates in
insertion order; `set` of an existing key keeps its position; `delete`
removes the entry without renumbering).  `Float32Array` is modelled as a
`List ℚ` of fixed length; out-of-range writes on a typed array are silently
ignored, which is exactly the behaviour of `List.set`.

The embedded physics engine (cannon-es) is a black box per the design: the
registry holds each body's state, and `world.step` is a parameter
`step : ℚ → List (ℕ × Body) → List (ℕ × Body)` of the worker transition
(cannon steps the registered bodies in place, so the id structure of the
registry is untouched by a step; theorems that need this take it as a
hypothesis on `step`).
-/

namespace ThreeBase

/-- A 3-component vector of rationals (models a JS `[number, number, number]`
or a cannon `Vec3`). -/
structure Vec3 where
  x : ℚ
  y : ℚ
  z : ℚ
deriving DecidableEq

/-- A quaternion in component order x, y, z, w (models cannon's
`Quaternion`). -/
structure Quat where
  x : ℚ
  y : ℚ
  z : ℚ
  w : ℚ
deriving DecidableEq

/-- The identity quaternion, cannon's default body orientation. -/
def Quat.identity : Quat := ⟨0, 0, 0, 1⟩

/-- `PhysicsShapeType` from `types.ts`.  The TS enum has exactly box, sphere
and plane; `unknownTag` models any other runtime value reaching the
worker's `default:` branch of the shape switch. -/
inductive PhysicsShapeType where
  | box
  | sphere
  | plane
  | unknownTag (tag : String)
deriving DecidableEq

/-- The optional `material{friction, restitution}` record of
`PhysicsObjectOptions`. -/
structure PhysicsMaterial where
  friction : ℚ
  restitution : ℚ
deriving DecidableEq

/-- `PhysicsObjectOptions` from `types.ts`.  Optional fields are `Option`s;
`size` is a 3-vector (for box), `radius` a scalar (for sphere). -/
structure PhysicsObjectOptions where
  type : PhysicsShapeType
  mass : ℚ
  position : Vec3
  quaternion : Option Quat := none
  size : Option Vec3 := none
  radius : Option ℚ := none
  material : Option PhysicsMaterial := none
  linearDamping : Option ℚ := none
  angularDamping : Option ℚ := none
  fixedRotation : Option Bool := none
deriving DecidableEq

/-- A collision shape as constructed by the worker's `createBody` switch:
`CANNON.Box` stores half extents, `CANNON.Sphere` a radius,
`CANNON.Plane` has no parameters. -/
inductive Shape where
  | box (halfExtents : Vec3)
  | sphere (radius : ℚ)
  | plane
deriving DecidableEq

/-- A cannon body at the level of detail the worker touches: mass, the three
position fields (`position`, `previousPosition`, `interpolatedPosition`),
orientation, velocities, accumulated force, damping, material, the
fixed-rotation flag, the discrete sleep state and the attached shape. -/
structure Body where
  mass : ℚ
  position : Vec3
  previousPosition : Vec3
  interpolatedPosition : Vec3
  quaternion : Quat
  velocity : Vec3
  angularVelocity : Vec3
  force : Vec3
  linearDamping : ℚ
  angularDamping : ℚ
  material : Option PhysicsMaterial
  fixedRotation : Bool
  sleepState : ℕ
  shape : Shape
deriving DecidableEq

/-- The world parameters fixed by `init`: gravity vector and solver
iteration count.  The cannon world's body set is kept in lockstep with the
worker's registry (`world.addBody` / `world.removeBody` are called exactly
when the registry gains / loses the entry), so the registry is the single
model of both. -/
structure WorldParams where
  gravity : Vec3
  iterations : ℕ
deriving DecidableEq

/-- Command messages, coordinator → worker (`PhysicsWorkerIncomingMessage`).
`unknownTag` models a message whose discriminant matches no case of the
worker's `handleMessage` switch. -/
inductive IncomingMessage where
  | init (gravity : Vec3) (iterations : Option ℕ)
  | addBody (id : ℕ) (options : PhysicsObjectOptions)
  | removeBody (id : ℕ)
  | update (dt : ℚ)
  | applyForce (id : ℕ) (force : Vec3) (worldPoint : Option Vec3)
  | applyImpulse (id : ℕ) (impulse : Vec3) (worldPoint : Option Vec3)
  | setPosition (id : ℕ) (position : Vec3)
  | setVelocity (id : ℕ) (velocity : Vec3)
  | getBodyProps (id : ℕ) (requestId : String)
  | unknownTag (tag : String)
deriving DecidableEq

/-- The payload of a `GET_BODY_PROPS` response (`PhysicsBodyProperties` in
`types.ts`). -/
structure BodyPropsResponse where
  mass : ℚ
  position : Vec3
  quaternion : Quat
  velocity : Vec3
  angularVelocity : Vec3
  fixedRotation : Bool
  sleepState : ℕ
  requestId : String
deriving DecidableEq

/-- Event messages, worker → coordinator (`PhysicsWorkerOutgoingMessage`):
a sync frame of flat position/quaternion buffers, or a body-properties
response. -/
inductive OutgoingMessage where
  | sync (positions : List ℚ) (quaternions : List ℚ)
  | bodyProps (props : BodyPropsResponse)
deriving DecidableEq

/-- Errors a worker command can raise: a shape configuration `throw` from
`createBody`, or the `TypeError` from touching `this.world` while it is
still undefined (before `init`). -/
inductive WorkerError where
  | shapeConfig (msg : String)
  | uninitializedWorld
deriving DecidableEq

/-- Lookup in an insertion-ordered map (JS `Map.get`). -/
def mapLookup {α : Type} (m : List (ℕ × α)) (id : ℕ) : Option α :=
  (m.find? (fun p => p.1 = id)).map Prod.snd

/-- JS `Map.set`: replace the entry in place if the key is present
(keeping its position in iteration order), else append a fresh entry at
the end. -/
def mapSet {α : Type} : List (ℕ × α) → ℕ → α → List (ℕ × α)
  | [], id, v => [(id, v)]
  | p :: t, id, v => if p.1 = id then (id, v) :: t else p :: mapSet t id v

/-- JS `Map.delete`: drop the entry with the key, keep the rest in order. -/
def mapDelete {α : Type} (m : List (ℕ × α)) (id : ℕ) : List (ℕ × α) :=
  m.filter (fun p => p.1 ≠ id)

/-- Update the value at a key in place (models mutating a body object that
the registry holds a reference to). -/
def mapModify {α : Type} (m : List (ℕ × α)) (id : ℕ) (f : α → α) : List (ℕ × α) :=
  m.map (fun p => if p.1 = id then (p.1, f p.2) else p)

/-- Worker state: the optional world (undefined until `init`), the live-body
registry in insertion order, and the two flat output buffers. -/
structure PhysicsWorker where
  world : Option WorldParams
  bodies : List (ℕ × Body)
  positions : List ℚ
  quaternions : List ℚ
deriving DecidableEq

/-- The freshly constructed worker: no world yet, empty registry,
zero-length buffers (`new Float32Array(0)`). -/
def PhysicsWorker.initial : PhysicsWorker :=
  { world := none, bodies := [], positions := [], quaternions := [] }

/-- `init`: construct the world with the given gravity and iteration count
(default 10). -/
def PhysicsWorker.init (w : PhysicsWorker) (gravity : Vec3)
    (iterations : Option ℕ) : PhysicsWorker :=
  { w with world := some { gravity := gravity, iterations := iterations.getD 10 } }

/-- Grow a flat buffer to length `n` if it is shorter, copying the old
contents into the front and zero-filling the rest (`new Float32Array(n)`
followed by `.set(old)`); otherwise leave it alone. -/
def growArray (l : List ℚ) (n : ℕ) : List ℚ :=
  if l.length < n then l ++ List.replicate (n - l.length) 0 else l

/-- `resizeArrays`: ensure positions can hold `3·size` and quaternions
`4·size` entries, growing only. -/
def PhysicsWorker.resizeArrays (w : PhysicsWorker) : PhysicsWorker :=
  { w with
      positions := growArray w.positions (w.bodies.length * 3)
      quaternions := growArray w.quaternions (w.bodies.length * 4) }

/-- The shape switch at the top of `createBody`.  JS truthiness: a missing
`size` is the only falsy value an array field can take, while a `radius`
of `0` is falsy as well, so `!options.radius` rejects both `undefined`
and `0`. -/
def mkShape (o : PhysicsObjectOptions) : Except WorkerError Shape :=
  match o.type with
  | .box =>
    match o.size with
    | none => .error (.shapeConfig "Box shape requires size")
    | some s => .ok (.box ⟨s.x / 2, s.y / 2, s.z / 2⟩)
  | .sphere =>
    match o.radius with
    | none => .error (.shapeConfig "Sphere shape requires radius")
    | some r =>
      if r = 0 then .error (.shapeConfig "Sphere shape requires radius")
      else .ok (.sphere r)
  | .plane => .ok .plane
  | .unknownTag tag => .error (.shapeConfig ("Unsupported shape type: " ++ tag))

/-- Whether the shape switch throws, as a boolean. -/
def badShape (o : PhysicsObjectOptions) : Bool :=
  match o.type with
  | .box => o.size.isNone
  | .sphere => o.radius.isNone || o.radius == some 0
  | .plane => false
  | .unknownTag _ => true

/-- The body built by `createBody` once the shape exists: the cannon `Body`
constructor copies the initial position into `previousPosition` and
`interpolatedPosition`, defaults the orientation to identity (overwritten
afterwards when `options.quaternion` is given), and zeroes the dynamic
state; damping defaults to 0.01. -/
def mkBodyFromOptions (o : PhysicsObjectOptions) (shape : Shape) : Body :=
  { mass := o.mass
    position := o.position
    previousPosition := o.position
    interpolatedPosition := o.position
    quaternion := o.quaternion.getD Quat.identity
    velocity := ⟨0, 0, 0⟩
    angularVelocity := ⟨0, 0, 0⟩
    force := ⟨0, 0, 0⟩
    linearDamping := o.linearDamping.getD (1 / 100)
    angularDamping := o.angularDamping.getD (1 / 100)
    material := o.material
    fixedRotation := o.fixedRotation.getD false
    sleepState := 0
    shape := shape }

/-- `createBody`: build the shape (throwing a configuration error on a
missing size / missing-or-zero radius / unknown tag), build the body, add
it to the world (`this.world.addBody` — a `TypeError` if the world is
still undefined), store it in the registry under `id`, and run the
capacity check. -/
def PhysicsWorker.createBody (w : PhysicsWorker) (id : ℕ)
    (o : PhysicsObjectOptions) : Except WorkerError PhysicsWorker := do
  let shape ← mkShape o
  let body := mkBodyFromOptions o shape
  match w.world with
  | none => .error .uninitializedWorld
  | some _ =>
    .ok (PhysicsWorker.resizeArrays { w with bodies := mapSet w.bodies id body })

/-- `removeBody`: look the body up; if absent, do nothing; if present,
remove it from the world (which requires the world to exist) and delete
the registry entry. -/
def PhysicsWorker.removeBody (w : PhysicsWorker) (id : ℕ) :
    Except WorkerError PhysicsWorker :=
  match mapLookup w.bodies id with
  | none => .ok w
  | some _ =>
    match w.world with
    | none => .error .uninitializedWorld
    | some _ => .ok { w with bodies := mapDelete w.bodies id }

/-- `body.applyForce(f, p)` at the level the claims need: the engine
accumulates the force on the body (torque bookkeeping is internal to the
engine and no claim depends on it). -/
def bodyApplyForce (f : Vec3) (b : Body) : Body :=
  { b with force := ⟨b.force.x + f.x, b.force.y + f.y, b.force.z + f.z⟩ }

/-- `body.applyImpulse(i, p)` at the level the claims need: the engine adds
`impulse · invMass` to the velocity, where a non-positive mass gives
`invMass = 0`. -/
def bodyApplyImpulse (imp : Vec3) (b : Body) : Body :=
  let invMass : ℚ := if 0 < b.mass then 1 / b.mass else 0
  { b with
      velocity := ⟨b.velocity.x + imp.x * invMass,
                   b.velocity.y + imp.y * invMass,
                   b.velocity.z + imp.z * invMass⟩ }

/-- Worker `applyForce`: no-op when the id is unknown. -/
def PhysicsWorker.applyForce (w : PhysicsWorker) (id : ℕ) (force : Vec3)
    (_worldPoint : Option Vec3) : PhysicsWorker :=
  match mapLookup w.bodies id with
  | none => w
  | some _ => { w with bodies := mapModify w.bodies id (bodyApplyForce force) }

/-- Worker `applyImpulse`: no-op when the id is unknown. -/
def PhysicsWorker.applyImpulse (w : PhysicsWorker) (id : ℕ) (impulse : Vec3)
    (_worldPoint : Option Vec3) : PhysicsWorker :=
  match mapLookup w.bodies id with
  | none => w
  | some _ => { w with bodies := mapModify w.bodies id (bodyApplyImpulse impulse) }

/-- Worker `setPosition`: overwrite `position`, `previousPosition` and
`interpolatedPosition` with the given vector; no-op when the id is
unknown. -/
def PhysicsWorker.setPosition (w : PhysicsWorker) (id : ℕ) (p : Vec3) :
    PhysicsWorker :=
  match mapLookup w.bodies id with
  | none => w
  | some _ =>
    { w with
        bodies := mapModify w.bodies id (fun b =>
          { b with position := p, previousPosition := p, interpolatedPosition := p }) }

/-- Worker `setVelocity`: overwrite the velocity; no-op when the id is
unknown. -/
def PhysicsWorker.setVelocity (w : PhysicsWorker) (id : ℕ) (v : Vec3) :
    PhysicsWorker :=
  match mapLookup w.bodies id with
  | none => w
  | some _ => { w with bodies := mapModify w.bodies id (fun b => { b with velocity := v }) }

/-- The properties object `getBodyProps` sends back for a found body. -/
def bodyPropsOf (b : Body) (requestId : String) : BodyPropsResponse :=
  { mass := b.mass
    position := b.position
    quaternion := b.quaternion
    velocity := b.velocity
    angularVelocity := b.angularVelocity
    fixedRotation := b.fixedRotation
    sleepState := b.sleepState
    requestId := requestId }

/-- Worker `getBodyProps`: when the id is unknown it only logs a warning and
returns — no message is posted; when found, exactly one response tagged
with the request id is posted.  The worker state is untouched either
way. -/
def PhysicsWorker.getBodyProps (w : PhysicsWorker) (id : ℕ)
    (requestId : String) : PhysicsWorker × List OutgoingMessage :=
  match mapLookup w.bodies id with
  | none => (w, [])
  | some b => (w, [.bodyProps (bodyPropsOf b requestId)])

/-- The copy loop of the worker's `update`: for the `i`-th registry entry,
write the position into slots `i·3 .. i·3+2` and the quaternion (x,y,z,w)
into slots `i·4 .. i·4+3`.  `List.set` ignores out-of-range indices,
exactly as a `Float32Array` ignores out-of-range writes. -/
def writeLoop : List (ℕ × Body) → ℕ → List ℚ → List ℚ → List ℚ × List ℚ
  | [], _, ps, qs => (ps, qs)
  | (_, b) :: rest, i, ps, qs =>
    let ps := (((ps.set (i * 3) b.position.x).set (i * 3 + 1) b.position.y).set
      (i * 3 + 2) b.position.z)
    let qs := ((((qs.set (i * 4) b.quaternion.x).set (i * 4 + 1) b.quaternion.y).set
      (i * 4 + 2) b.quaternion.z).set (i * 4 + 3) b.quaternion.w)
    writeLoop rest (i + 1) ps qs

/-- `sync`: post the filled buffers as one `SYNC` message (transferring
ownership of both), then allocate fresh zeroed buffers sized exactly
`3·size` and `4·size` for the current registry. -/
def PhysicsWorker.syncStep (w : PhysicsWorker) : PhysicsWorker × OutgoingMessage :=
  ({ w with
      positions := List.replicate (w.bodies.length * 3) 0
      quaternions := List.replicate (w.bodies.length * 4) 0 },
   .sync w.positions w.quaternions)

/-- The engine's "step simulation by dt" as a black-box parameter: cannon
mutates the registered bodies in place during `world.step`, leaving the
registry's id structure untouched. -/
def StepFn : Type := ℚ → List (ℕ × Body) → List (ℕ × Body)

/-- Worker `update`: step the world once by `dt` (a `TypeError` if the world
is still undefined), copy every registry entry into the flat buffers in
iteration order, and emit exactly one sync frame, reallocating the
buffers. -/
def PhysicsWorker.update (step : StepFn) (w : PhysicsWorker) (dt : ℚ) :
    Except WorkerError (PhysicsWorker × List OutgoingMessage) :=
  match w.world with
  | none => .error .uninitializedWorld
  | some _ =>
    let bodies := step dt w.bodies
    let (ps, qs) := writeLoop bodies 0 w.positions w.quaternions
    let (w', msg) := PhysicsWorker.syncStep { w with bodies := bodies, positions := ps, quaternions := qs }
    .ok (w', [msg])

/-- The worker's `handleMessage` switch.  An unknown discriminant is logged
and dropped. -/
def PhysicsWorker.handleMessage (step : StepFn) (w : PhysicsWorker)
    (msg : IncomingMessage) : Except WorkerError (PhysicsWorker × List OutgoingMessage) :=
  match msg with
  | .init gravity iterations => .ok (w.init gravity iterations, [])
  | .addBody id options => do
    let w' ← w.createBody id options
    .ok (w', [])
  | .removeBody id => do
    let w' ← w.removeBody id
    .ok (w', [])
  | .update dt => w.update step dt
  | .applyForce id force worldPoint => .ok (w.applyForce id force worldPoint, [])
  | .applyImpulse id impulse worldPoint => .ok (w.applyImpulse id impulse worldPoint, [])
  | .setPosition id position => .ok (w.setPosition id position, [])
  | .setVelocity id velocity => .ok (w.setVelocity id velocity, [])
  | .getBodyProps id requestId => .ok (w.getBodyProps id requestId)
  | .unknownTag _ => .ok (w, [])

/-- Process a list of command messages in order, concatenating the emitted
events; the first raised error aborts the worker context. -/
def processAll (step : StepFn) (w : PhysicsWorker) :
    List IncomingMessage → Except WorkerError (PhysicsWorker × List OutgoingMessage)
  | [] => .ok (w, [])
  | m :: ms => do
    let (w₁, out₁) ← w.handleMessage step m
    let (w₂, out₂) ← processAll step w₁ ms
    .ok (w₂, out₁ ++ out₂)

/-! ## Coordinator (`src/physics/PhysicsWorld.ts`) -/

/-- A renderable object at the level the coordinator touches: `OnSync`
assigns its `position` and `quaternion`. -/
structure Object3D where
  position : Vec3
  quaternion : Quat
deriving DecidableEq

/-- Coordinator state: the renderable-object registry in insertion order,
the id counter, the timestamp of the last `update()` (milliseconds, as
`performance.now()`), and the pending `getBodyProperties` request ids
(the continuation values themselves carry no data the claims need). -/
structure PhysicsWorld where
  objects : List (ℕ × Object3D)
  nextBodyId : ℕ
  lastUpdateTime : ℚ
  bodyPropsCallbacks : List String
deriving DecidableEq

/-- The coordinator state after the constructor: empty registry, ids start
at 1, `lastUpdateTime = 0`, no pending queries.  (The constructor also
posts the `INIT` command.) -/
def PhysicsWorld.initial : PhysicsWorld :=
  { objects := [], nextBodyId := 1, lastUpdateTime := 0, bodyPropsCallbacks := [] }

/-- `addObject`: allocate the next id, record `id → renderable`, and send
`ADD_BODY`; returns the new state, the posted command and the id. -/
def PhysicsWorld.addObject (c : PhysicsWorld) (obj : Object3D)
    (options : PhysicsObjectOptions) : PhysicsWorld × IncomingMessage × ℕ :=
  let id := c.nextBodyId
  ({ c with nextBodyId := id + 1, objects := mapSet c.objects id obj },
   .addBody id options, id)

/-- `removeObject`: delete the local mapping and send `REMOVE_BODY`. -/
def PhysicsWorld.removeObject (c : PhysicsWorld) (id : ℕ) :
    PhysicsWorld × IncomingMessage :=
  ({ c with objects := mapDelete c.objects id }, .removeBody id)

/-- The `dt` computation inside the coordinator's `update()`: elapsed
wall-clock seconds since `lastUpdateTime`, capped at 1/30. -/
def PhysicsWorld.updateDt (c : PhysicsWorld) (now : ℚ) : ℚ :=
  let dt := (now - c.lastUpdateTime) / 1000
  if dt > 1 / 30 then 1 / 30 else dt

/-- `update()`: record `now` as the last update time and send a single
`UPDATE` command carrying the clamped dt. -/
def PhysicsWorld.update (c : PhysicsWorld) (now : ℚ) :
    PhysicsWorld × IncomingMessage :=
  ({ c with lastUpdateTime := now }, .update (c.updateDt now))

/-- `getBodyProperties`: record the pending continuation under the freshly
generated request id (`crypto.randomUUID()`, modelled as an input) and
send the query command. -/
def PhysicsWorld.getBodyProperties (c : PhysicsWorld) (id : ℕ)
    (requestId : String) : PhysicsWorld × IncomingMessage :=
  ({ c with bodyPropsCallbacks := requestId :: c.bodyPropsCallbacks },
   .getBodyProps id requestId)

/-- The per-object body of the `OnSync` loop: the `i`-th object is updated
from frame slots `i·3 ..` and `i·4 ..` only when `i·3` and `i·4` are in
range of the respective buffers; otherwise it is left untouched. -/
def updateObjAt (i : ℕ) (ps qs : List ℚ) (p : ℕ × Object3D) : ℕ × Object3D :=
  if i * 3 < ps.length ∧ i * 4 < qs.length then
    (p.1,
     { position := ⟨ps.getD (i * 3) 0, ps.getD (i * 3 + 1) 0, ps.getD (i * 3 + 2) 0⟩
       quaternion := ⟨qs.getD (i * 4) 0, qs.getD (i * 4 + 1) 0,
                      qs.getD (i * 4 + 2) 0, qs.getD (i * 4 + 3) 0⟩ })
  else p

/-- The `OnSync` loop (`updateObjects`): walk the object registry in
insertion order with a running index.  (Under the in-range guards used by
the claims every read is in bounds, so `getD _ 0` never supplies its
default.) -/
def updateLoop : List (ℕ × Object3D) → ℕ → List ℚ → List ℚ → List (ℕ × Object3D)
  | [], _, _, _ => []
  | p :: rest, i, ps, qs => updateObjAt i ps qs p :: updateLoop rest (i + 1) ps qs

/-- `updateObjects`, starting the index at 0. -/
def PhysicsWorld.updateObjects (c : PhysicsWorld) (ps qs : List ℚ) : PhysicsWorld :=
  { c with objects := updateLoop c.objects 0 ps qs }

/-- The coordinator's `handleMessage`: a sync frame drives the object
update; a body-properties response resolves and removes the matching
pending query (and is dropped when no continuation matches). -/
def PhysicsWorld.handleMessage (c : PhysicsWorld) (msg : OutgoingMessage) :
    PhysicsWorld :=
  match msg with
  | .sync ps qs => c.updateObjects ps qs
  | .bodyProps props =>
    if c.bodyPropsCallbacks.contains props.requestId then
      { c with bodyPropsCallbacks := c.bodyPropsCallbacks.filter (fun r => r ≠ props.requestId) }
    else c

/-- `addObject` folded over a list of renderable/options pairs, collecting
the posted `ADD_BODY` commands in order. -/
def addObjects (c : PhysicsWorld) :
    List (Object3D × PhysicsObjectOptions) → PhysicsWorld × List IncomingMessage
  | [] => (c, [])
  | (o, opt) :: rest =>
    let (c₁, msg, _) := c.addObject o opt
    let (c₂, msgs) := addObjects c₁ rest
    (c₂, msg :: msgs)

/-- A concrete identity step function (e.g. every body asleep or `dt = 0`),
used to instantiate the engine black box in witnesses. -/
def stepId : StepFn := fun _ bs => bs

/-- A concrete initialized worker (default gravity, 10 iterations) for
witnesses and counterexamples. -/
def readyWorker : PhysicsWorker :=
  PhysicsWorker.initial.init ⟨0, -10, 0⟩ (some 10)

/-- A box option record whose size vector is strictly negative in every
component: it violates the positive-size shape invariant stated in the
design's data model. -/
def negBoxOptions : PhysicsObjectOptions :=
  { type := .box, mass := 1, position := ⟨0, 0, 0⟩, size := some ⟨-1, -1, -1⟩ }

/-- Modelled from the spec: the shape invariant of the data model ("`Box`
requires a positive 3-vector size; `Sphere` requires a positive radius"),
as a refinement reference to compare against what the code checks. -/
def specShapeOk (o : PhysicsObjectOptions) : Bool :=
  match o.type with
  | .box =>
    match o.size with
    | some s => decide (0 < s.x) && decide (0 < s.y) && decide (0 < s.z)
    | none => false
  | .sphere =>
    match o.radius with
    | some r => decide (0 < r)
    | none => false
  | .plane => true
  | .unknownTag _ => false

/-- A valid sphere body used in witnesses. -/
def sphereOptions : PhysicsObjectOptions :=
  { type := .sphere, mass := 1, position := ⟨0, 1, 0⟩, radius := some 2 }

/-- A valid static plane body used in witnesses. -/
def planeOptions : PhysicsObjectOptions :=
  { type := .plane, mass := 0, position := ⟨0, 0, 0⟩ }

/-- A worker holding one sphere body, for witnesses: `readyWorker` after a
successful `CreateBody(1, sphereOptions)`. -/
def oneBodyWorker : PhysicsWorker :=
  (readyWorker.createBody 1 sphereOptions).toOption.getD readyWorker

/-- The body `CreateBody(1, sphereOptions)` constructs. -/
def sphereBody : Body := mkBodyFromOptions sphereOptions (Shape.sphere 2)

/-- `sphereBody` teleported to `p` (all three position fields reset). -/
def sphereBodyAt (p : Vec3) : Body :=
  { sphereBody with position := p, previousPosition := p, interpolatedPosition := p }

/-- The three position components of a body, in the order the worker's copy
loop writes them. -/
def posTriple (b : Body) : List ℚ := [b.position.x, b.position.y, b.position.z]

/-- The four quaternion components of a body, in the order (x, y, z, w) the
worker's copy loop writes them. -/
def quatQuad (b : Body) : List ℚ :=
  [b.quaternion.x, b.quaternion.y, b.quaternion.z, b.quaternion.w]

/-- The flat position buffer contents for a registry serialized in iteration
order: the concatenation of each body's position triple. -/
def posFlat : List (ℕ × Body) → List ℚ
  | [] => []
  | p :: rest => posTriple p.2 ++ posFlat rest

/-- The flat quaternion buffer contents for a registry serialized in
iteration order. -/
def quatFlat : List (ℕ × Body) → List ℚ
  | [] => []
  | p :: rest => quatQuad p.2 ++ quatFlat rest

/-- The `ADD_BODY` commands the coordinator posts for a list of
renderable/options pairs when its id counter starts at `startId`. -/
def createMsgs (startId : ℕ) : List (Object3D × PhysicsObjectOptions) → List IncomingMessage
  | [] => []
  | (_, opt) :: rest => .addBody startId opt :: createMsgs (startId + 1) rest

/-- The renderable-registry entries those `addObject` calls append. -/
def newObjEntries (startId : ℕ) : List (Object3D × PhysicsObjectOptions) → List (ℕ × Object3D)
  | [] => []
  | (o, _) :: rest => (startId, o) :: newObjEntries (startId + 1) rest

/-- The body built for options whose shape check passes. -/
def bodyOf (o : PhysicsObjectOptions) : Body :=
  mkBodyFromOptions o ((mkShape o).toOption.getD .plane)

/-- The live-body-registry entries the matching `CreateBody` commands
append on the worker side. -/
def newBodyEntries (startId : ℕ) : List (Object3D × PhysicsObjectOptions) → List (ℕ × Body)
  | [] => []
  | (_, opt) :: rest => (startId, bodyOf opt) :: newBodyEntries (startId + 1) rest

/-- A renderable with identity transform, used in witnesses. -/
def unitObj : Object3D := ⟨⟨0, 0, 0⟩, ⟨0, 0, 0, 1⟩⟩

/-- Default registry entry used when reading object lists with `getD`. -/
def defaultObjEntry : ℕ × Object3D := (0, unitObj)

/-- Default registry entry used when reading body lists with `getD`. -/
def defaultBodyEntry : ℕ × Body := (0, bodyOf planeOptions)

/-! ## Registry (association list) lemmas -/

theorem mapLookup_mapSet_self {α : Type} (m : List (ℕ × α)) (id : ℕ) (v : α) :
    mapLookup (mapSet m id v) id = some v := by
  induction m with
  | nil => simp [mapSet, mapLookup, List.find?]
  | cons p t ih =>
    by_cases h : p.1 = id
    · simp [mapSet, h, mapLookup, List.find?]
    · simpa [mapSet, h, mapLookup, List.find?] using ih

theorem mapLookup_mapModify_self {α : Type} (m : List (ℕ × α)) (id : ℕ) (f : α → α) :
    mapLookup (mapModify m id f) id = (mapLookup m id).map f := by
  induction m with
  | nil => simp [mapModify, mapLookup, List.find?]
  | cons p t ih =>
    by_cases h : p.1 = id
    · simp [mapModify, h, mapLookup, List.find?]
    · simpa [mapModify, h, mapLookup, List.find?] using ih

theorem mapLookup_mapDelete_self {α : Type} (m : List (ℕ × α)) (id : ℕ) :
    mapLookup (mapDelete m id) id = none := by
  induction m with
  | nil => simp [mapDelete, mapLookup, List.find?]
  | cons p t ih =>
    by_cases h : p.1 = id
    · simp [mapDelete, h, mapLookup, List.find?] at ih ⊢
    · simp [mapDelete, h, mapLookup, List.find?] at ih ⊢

/-! ## Flat-buffer lemmas: the copy loop serializes the registry -/

theorem posFlat_length (bs : List (ℕ × Body)) : (posFlat bs).length = 3 * bs.length := by
  induction bs with
  | nil => simp [posFlat]
  | cons b t ih => simp [posFlat, posTriple, ih]; ring

theorem quatFlat_length (bs : List (ℕ × Body)) : (quatFlat bs).length = 4 * bs.length := by
  induction bs with
  | nil => simp [quatFlat]
  | cons b t ih => simp [quatFlat, quatQuad, ih]; ring

theorem set_append_len {α : Type} (pre l : List α) (i : ℕ) (v : α) :
    (pre ++ l).set (pre.length + i) v = pre ++ l.set i v := by
  induction pre with
  | nil => simp
  | cons a t ih =>
    have h : (a :: t).length + i = (t.length + i) + 1 := by
      simp only [List.length_cons]
      omega
    rw [List.cons_append, h, List.set_cons_succ, ih, List.cons_append]

theorem getD_append_len {α : Type} (pre l : List α) (i : ℕ) (d : α) :
    (pre ++ l).getD (pre.length + i) d = l.getD i d := by
  rw [List.getD_append_right _ _ _ _ (Nat.le_add_right _ _), Nat.add_sub_cancel_left]

theorem drop_add3 {α : Type} (n : ℕ) (r0 r1 r2 : α) (l : List α) :
    List.drop (n + 3) (r0 :: r1 :: r2 :: l) = List.drop n l := by
  simp [List.drop_succ_cons]

theorem drop_add4 {α : Type} (n : ℕ) (r0 r1 r2 r3 : α) (l : List α) :
    List.drop (n + 4) (r0 :: r1 :: r2 :: r3 :: l) = List.drop n l := by
  simp [List.drop_succ_cons]

theorem set3_append (pre : List ℚ) (r0 r1 r2 : ℚ) (rest : List ℚ)
    (x y z : ℚ) (k : ℕ) (hp : pre.length = k * 3) :
    (((pre ++ r0 :: r1 :: r2 :: rest).set (k * 3) x).set (k * 3 + 1) y).set
      (k * 3 + 2) z = pre ++ x :: y :: z :: rest := by
  have e0 : k * 3 = pre.length + 0 := by omega
  rw [e0, set_append_len]
  have e1 : pre.length + 0 + 1 = pre.length + 1 := by omega
  rw [e1, set_append_len]
  have e2 : pre.length + 1 + 2 = pre.length + 3 := by omega
  have e3 : pre.length + 1 + 1 + 1 = pre.length + 3 := by omega
  rw [show pre.length + 0 + 2 = pre.length + 2 by omega, set_append_len]
  simp [List.set]

theorem set4_append (pre : List ℚ) (r0 r1 r2 r3 : ℚ) (rest : List ℚ)
    (x y z w : ℚ) (k : ℕ) (hp : pre.length = k * 4) :
    ((((pre ++ r0 :: r1 :: r2 :: r3 :: rest).set (k * 4) x).set (k * 4 + 1) y).set
      (k * 4 + 2) z).set (k * 4 + 3) w = pre ++ x :: y :: z :: w :: rest := by
  have e0 : k * 4 = pre.length + 0 := by omega
  rw [e0, set_append_len]
  rw [show pre.length + 0 + 1 = pre.length + 1 by omega, set_append_len]
  rw [show pre.length + 0 + 2 = pre.length + 2 by omega, set_append_len]
  rw [show pre.length + 0 + 3 = pre.length + 3 by omega, set_append_len]
  simp [List.set]

/-- The worker's copy loop, on buffers at least as large as the registry
needs, writes exactly the serialized registry after the already-written
prefix and leaves any stale tail beyond the registry's span alone. -/
theorem writeLoop_eq (bs : List (ℕ × Body)) :
    ∀ (k : ℕ) (pre rest qre qrest : List ℚ),
    pre.length = k * 3 → qre.length = k * 4 →
    3 * bs.length ≤ rest.length → 4 * bs.length ≤ qrest.length →
    writeLoop bs k (pre ++ rest) (qre ++ qrest) =
      (pre ++ posFlat bs ++ rest.drop (3 * bs.length),
       qre ++ quatFlat bs ++ qrest.drop (4 * bs.length)) := by
  induction bs with
  | nil =>
    intro k pre rest qre qrest hp hq hr hqr
    simp [writeLoop, posFlat, quatFlat]
  | cons b t ih =>
    intro k pre rest qre qrest hp hq hr hqr
    rcases rest with _ | ⟨r0, _ | ⟨r1, _ | ⟨r2, rest'⟩⟩⟩ <;>
      simp only [List.length_nil, List.length_cons] at hr <;> try omega
    rcases qrest with _ | ⟨q0, _ | ⟨q1, _ | ⟨q2, _ | ⟨q3, qrest'⟩⟩⟩⟩ <;>
      simp only [List.length_nil, List.length_cons] at hqr <;> try omega
    show writeLoop t (k + 1)
        ((((pre ++ r0 :: r1 :: r2 :: rest').set (k * 3) b.2.position.x).set
          (k * 3 + 1) b.2.position.y).set (k * 3 + 2) b.2.position.z)
        (((((qre ++ q0 :: q1 :: q2 :: q3 :: qrest').set (k * 4) b.2.quaternion.x).set
          (k * 4 + 1) b.2.quaternion.y).set (k * 4 + 2) b.2.quaternion.z).set
          (k * 4 + 3) b.2.quaternion.w) = _
    rw [set3_append pre r0 r1 r2 rest' _ _ _ k hp,
        set4_append qre q0 q1 q2 q3 qrest' _ _ _ _ k hq]
    have hre : pre ++ b.2.position.x :: b.2.position.y :: b.2.position.z :: rest' =
        (pre ++ posTriple b.2) ++ rest' := by
      simp [posTriple]
    have hqe : qre ++ b.2.quaternion.x :: b.2.quaternion.y :: b.2.quaternion.z ::
        b.2.quaternion.w :: qrest' = (qre ++ quatQuad b.2) ++ qrest' := by
      simp [quatQuad]
    rw [hre, hqe, ih (k + 1) (pre ++ posTriple b.2) rest' (qre ++ quatQuad b.2) qrest'
      (by simp [posTriple]; omega) (by simp [quatQuad]; omega)
      (by omega) (by omega)]
    have hdrop : rest'.drop (3 * t.length) =
        (r0 :: r1 :: r2 :: rest').drop (3 * (t.length + 1)) := by
      rw [show 3 * (t.length + 1) = 3 * t.length + 3 by ring, drop_add3]
    have hqdrop : qrest'.drop (4 * t.length) =
        (q0 :: q1 :: q2 :: q3 :: qrest').drop (4 * (t.length + 1)) := by
      rw [show 4 * (t.length + 1) = 4 * t.length + 4 by ring, drop_add4]
    rw [hdrop, hqdrop]
    simp [posFlat, quatFlat, List.length_cons]

/-- Characterization of the worker's `update` under the capacity invariant:
the world is stepped once, exactly one sync frame is emitted carrying the
serialized registry (plus whatever stale tail lies beyond its span), and
both buffers are reallocated fresh at exactly the registry's current
size. -/
theorem PhysicsWorker.update_spec (step : StepFn) (w : PhysicsWorker) (dt : ℚ)
    (wp : WorldParams) (hw : w.world = some wp)
    (hp : 3 * (step dt w.bodies).length ≤ w.positions.length)
    (hq : 4 * (step dt w.bodies).length ≤ w.quaternions.length) :
    w.update step dt = .ok
      ({ w with
          bodies := step dt w.bodies,
          positions := List.replicate ((step dt w.bodies).length * 3) 0,
          quaternions := List.replicate ((step dt w.bodies).length * 4) 0 },
       [.sync
          (posFlat (step dt w.bodies) ++ w.positions.drop (3 * (step dt w.bodies).length))
          (quatFlat (step dt w.bodies) ++
            w.quaternions.drop (4 * (step dt w.bodies).length))]) := by
  unfold PhysicsWorker.update
  rw [hw]
  have h := writeLoop_eq (step dt w.bodies) 0 [] w.positions [] w.quaternions rfl rfl hp hq
  simp only [List.nil_append] at h
  dsimp only
  rw [h]
  rfl

theorem posFlat_getD (bs : List (ℕ × Body)) :
    ∀ (j c : ℕ) (d : ℕ × Body), j < bs.length → c < 3 →
    (posFlat bs).getD (j * 3 + c) 0 = (posTriple (bs.getD j d).2).getD c 0 := by
  induction bs with
  | nil =>
    intro j c d hj hc
    simp at hj
  | cons b t ih =>
    intro j c d hj hc
    cases j with
    | zero =>
      have e : 0 * 3 + c = c := by omega
      show (posTriple b.2 ++ posFlat t).getD (0 * 3 + c) 0 = _
      rw [e, List.getD_append _ _ _ _ (by simp [posTriple]; omega)]
      simp
    | succ j =>
      show (posTriple b.2 ++ posFlat t).getD ((j + 1) * 3 + c) 0 = _
      have e : (j + 1) * 3 + c = ((j * 3 + c) + 1 + 1) + 1 := by ring
      simp only [posTriple, List.cons_append, List.nil_append]
      rw [e, List.getD_cons_succ, List.getD_cons_succ, List.getD_cons_succ]
      simp only [List.getD_cons_succ]
      exact ih j c d (by simp at hj; omega) hc

theorem quatFlat_getD (bs : List (ℕ × Body)) :
    ∀ (j c : ℕ) (d : ℕ × Body), j < bs.length → c < 4 →
    (quatFlat bs).getD (j * 4 + c) 0 = (quatQuad (bs.getD j d).2).getD c 0 := by
  induction bs with
  | nil =>
    intro j c d hj hc
    simp at hj
  | cons b t ih =>
    intro j c d hj hc
    cases j with
    | zero =>
      have e : 0 * 4 + c = c := by omega
      show (quatQuad b.2 ++ quatFlat t).getD (0 * 4 + c) 0 = _
      rw [e, List.getD_append _ _ _ _ (by simp [quatQuad]; omega)]
      simp
    | succ j =>
      show (quatQuad b.2 ++ quatFlat t).getD ((j + 1) * 4 + c) 0 = _
      have e : (j + 1) * 4 + c = (((j * 4 + c) + 1 + 1) + 1) + 1 := by ring
      simp only [quatQuad, List.cons_append, List.nil_append]
      rw [e, List.getD_cons_succ, List.getD_cons_succ, List.getD_cons_succ,
        List.getD_cons_succ]
      simp only [List.getD_cons_succ]
      exact ih j c d (by simp at hj; omega) hc

/-! ## OnSync loop lemmas -/

theorem updateLoop_length (objs : List (ℕ × Object3D)) :
    ∀ k ps qs, (updateLoop objs k ps qs).length = objs.length := by
  induction objs with
  | nil => intro k ps qs; rfl
  | cons p t ih =>
    intro k ps qs
    simp [updateLoop, ih]

theorem updateLoop_getD (objs : List (ℕ × Object3D)) :
    ∀ (k j : ℕ) (ps qs : List ℚ) (d : ℕ × Object3D), j < objs.length →
    (updateLoop objs k ps qs).getD j d = updateObjAt (k + j) ps qs (objs.getD j d) := by
  induction objs with
  | nil =>
    intro k j ps qs d hj
    simp at hj
  | cons p t ih =>
    intro k j ps qs d hj
    cases j with
    | zero => simp [updateLoop]
    | succ j =>
      show (updateObjAt k ps qs p :: updateLoop t (k + 1) ps qs).getD (j + 1) d = _
      rw [List.getD_cons_succ, ih (k + 1) j ps qs d (by simp at hj; omega)]
      simp only [List.getD_cons_succ]
      rw [show k + (j + 1) = (k + 1) + j by omega]

/-! ## Creation-sequence lemmas -/

theorem mkShape_bad (o : PhysicsObjectOptions) (h : badShape o = true) :
    ∃ msg, mkShape o = .error (.shapeConfig msg) := by
  unfold mkShape badShape at *
  rcases o with ⟨ty, mass, pos, quat, size, radius, mat, ld, ad, fr⟩
  cases ty with
  | box => cases size <;> simp_all
  | sphere =>
    cases radius with
    | none => simp
    | some r =>
      simp only [Option.isNone_some, Bool.false_or] at h
      simp only [beq_iff_eq, Option.some.injEq] at h
      simp [h]
  | plane => simp_all
  | unknownTag tag => exact ⟨_, rfl⟩

theorem mkShape_good (o : PhysicsObjectOptions) (h : badShape o = false) :
    ∃ s, mkShape o = .ok s := by
  unfold mkShape badShape at *
  rcases o with ⟨ty, mass, pos, quat, size, radius, mat, ld, ad, fr⟩
  cases ty with
  | box => cases size <;> simp_all
  | sphere =>
    cases radius with
    | none => simp_all
    | some r =>
      simp only [Option.isNone_some, Bool.false_or, beq_eq_false_iff_ne, ne_eq,
        Option.some.injEq] at h
      simp [h]
  | plane => exact ⟨_, rfl⟩
  | unknownTag tag => simp_all

theorem growArray_length (l : List ℚ) (n : ℕ) :
    (growArray l n).length = max l.length n := by
  unfold growArray
  split_ifs with h <;> simp <;> omega

theorem growArray_take (l : List ℚ) (n : ℕ) :
    (growArray l n).take l.length = l := by
  unfold growArray
  split_ifs with h
  · rw [List.take_left]
  · exact List.take_length l

theorem mapSet_fresh {α : Type} (m : List (ℕ × α)) (id : ℕ) (v : α)
    (h : ∀ p ∈ m, p.1 ≠ id) : mapSet m id v = m ++ [(id, v)] := by
  induction m with
  | nil => rfl
  | cons p t ih =>
    have hp : p.1 ≠ id := h p (by simp)
    simp only [mapSet, hp, if_false, List.cons_append, List.cons.injEq, true_and]
    exact ih (fun q hq => h q (by simp [hq]))

theorem except_bind_ok {ε α β : Type} (a : α) (f : α → Except ε β) :
    (Except.ok a : Except ε α) >>= f = f a := rfl

theorem processAll_cons (step : StepFn) (w : PhysicsWorker) (m : IncomingMessage)
    (ms : List IncomingMessage) (w₁ : PhysicsWorker) (out₁ : List OutgoingMessage)
    (h : w.handleMessage step m = .ok (w₁, out₁)) (w₂ : PhysicsWorker)
    (out₂ : List OutgoingMessage) (h2 : processAll step w₁ ms = .ok (w₂, out₂)) :
    processAll step w (m :: ms) = .ok (w₂, out₁ ++ out₂) := by
  simp only [processAll, h, except_bind_ok, h2]

theorem newObjEntries_length (pairs : List (Object3D × PhysicsObjectOptions)) :
    ∀ startId, (newObjEntries startId pairs).length = pairs.length := by
  induction pairs with
  | nil => intro startId; rfl
  | cons pr rest ih =>
    intro startId
    obtain ⟨o, opt⟩ := pr
    simp [newObjEntries, ih]

theorem newBodyEntries_length (pairs : List (Object3D × PhysicsObjectOptions)) :
    ∀ startId, (newBodyEntries startId pairs).length = pairs.length := by
  induction pairs with
  | nil => intro startId; rfl
  | cons pr rest ih =>
    intro startId
    obtain ⟨o, opt⟩ := pr
    simp [newBodyEntries, ih]

/-- `addObject` folded over fresh ids: the coordinator's registry gains the
renderables in order with consecutive ids, and the posted commands are
the matching `ADD_BODY` sequence. -/
theorem addObjects_spec (pairs : List (Object3D × PhysicsObjectOptions)) :
    ∀ c : PhysicsWorld, (∀ p ∈ c.objects, p.1 < c.nextBodyId) →
    (addObjects c pairs).1.objects = c.objects ++ newObjEntries c.nextBodyId pairs ∧
    (addObjects c pairs).2 = createMsgs c.nextBodyId pairs := by
  induction pairs with
  | nil =>
    intro c hc
    simp [addObjects, newObjEntries, createMsgs]
  | cons pr rest ih =>
    intro c hc
    obtain ⟨o, opt⟩ := pr
    have hset : mapSet c.objects c.nextBodyId o = c.objects ++ [(c.nextBodyId, o)] :=
      mapSet_fresh _ _ _ (fun p hp => Nat.ne_of_lt (hc p hp))
    have hc₁ : ∀ p ∈ mapSet c.objects c.nextBodyId o, p.1 < c.nextBodyId + 1 := by
      intro p hp
      rw [hset] at hp
      rcases List.mem_append.mp hp with h1 | h1
      · exact Nat.lt_succ_of_lt (hc p h1)
      · rw [List.mem_singleton] at h1
        subst h1
        exact Nat.lt_succ_self _
    have ih' := ih { c with nextBodyId := c.nextBodyId + 1,
                            objects := mapSet c.objects c.nextBodyId o } hc₁
    simp only [addObjects, PhysicsWorld.addObject] at ih' ⊢
    refine ⟨?_, ?_⟩
    · rw [ih'.1, hset]
      simp [newObjEntries, List.append_assoc]
    · rw [ih'.2]
      simp [createMsgs]

/-- A sequence of valid `CreateBody` commands with fresh consecutive ids,
processed on an initialized worker whose buffers already satisfy the
capacity invariant: every create succeeds, no events are emitted, the
registry gains the bodies in order, and the buffers grow to exactly the
larger of their old length and the new registry's span. -/
theorem processCreates_spec (step : StepFn) (pairs : List (Object3D × PhysicsObjectOptions)) :
    ∀ (w : PhysicsWorker) (startId : ℕ) (wp : WorldParams),
    w.world = some wp →
    (∀ p ∈ w.bodies, p.1 < startId) →
    (∀ pr ∈ pairs, badShape pr.2 = false) →
    w.bodies.length * 3 ≤ w.positions.length →
    w.bodies.length * 4 ≤ w.quaternions.length →
    ∃ w' : PhysicsWorker,
      processAll step w (createMsgs startId pairs) = .ok (w', []) ∧
      w'.world = some wp ∧
      w'.bodies = w.bodies ++ newBodyEntries startId pairs ∧
      w'.positions.length = max w.positions.length ((w.bodies.length + pairs.length) * 3) ∧
      w'.quaternions.length = max w.quaternions.length ((w.bodies.length + pairs.length) * 4) := by
  induction pairs with
  | nil =>
    intro w startId wp hw hfresh hvalid hplen hqlen
    refine ⟨w, rfl, hw, by simp [newBodyEntries], ?_, ?_⟩
    · simp
      omega
    · simp
      omega
  | cons pr rest ih =>
    intro w startId wp hw hfresh hvalid hplen hqlen
    obtain ⟨o, opt⟩ := pr
    have hvopt : badShape opt = false := hvalid (o, opt) (by simp)
    obtain ⟨s, hs⟩ := mkShape_good opt hvopt
    have hbodyOf : bodyOf opt = mkBodyFromOptions opt s := by
      rw [bodyOf, hs]
      rfl
    have hset : mapSet w.bodies startId (mkBodyFromOptions opt s) =
        w.bodies ++ [(startId, mkBodyFromOptions opt s)] :=
      mapSet_fresh _ _ _ (fun p hp => Nat.ne_of_lt (hfresh p hp))
    have hcreate : w.createBody startId opt = .ok (PhysicsWorker.resizeArrays
        { w with bodies := mapSet w.bodies startId (mkBodyFromOptions opt s) }) := by
      unfold PhysicsWorker.createBody
      rw [hs, hw]
      rfl
    have hbodies₁ : (PhysicsWorker.resizeArrays
        { w with bodies := mapSet w.bodies startId (mkBodyFromOptions opt s) }).bodies =
        w.bodies ++ [(startId, mkBodyFromOptions opt s)] := by
      simp [PhysicsWorker.resizeArrays, hset]
    have hplen₁ : (PhysicsWorker.resizeArrays
        { w with bodies := mapSet w.bodies startId (mkBodyFromOptions opt s) }).positions.length =
        max w.positions.length ((w.bodies.length + 1) * 3) := by
      simp [PhysicsWorker.resizeArrays, growArray_length, hset]
    have hqlen₁ : (PhysicsWorker.resizeArrays
        { w with bodies := mapSet w.bodies startId (mkBodyFromOptions opt s) }).quaternions.length =
        max w.quaternions.length ((w.bodies.length + 1) * 4) := by
      simp [PhysicsWorker.resizeArrays, growArray_length, hset]
    have hworld₁ : (PhysicsWorker.resizeArrays
        { w with bodies := mapSet w.bodies startId (mkBodyFromOptions opt s) }).world = some wp := by
      simp [PhysicsWorker.resizeArrays, hw]
    have hfresh₁ : ∀ p ∈ (PhysicsWorker.resizeArrays
        { w with bodies := mapSet w.bodies startId (mkBodyFromOptions opt s) }).bodies,
        p.1 < startId + 1 := by
      intro p hp
      rw [hbodies₁] at hp
      rcases List.mem_append.mp hp with h1 | h1
      · exact Nat.lt_succ_of_lt (hfresh p h1)
      · rw [List.mem_singleton] at h1
        subst h1
        exact Nat.lt_succ_self _
    obtain ⟨w', hproc, hworld', hbodies', hple', hqle'⟩ :=
      ih (PhysicsWorker.resizeArrays
          { w with bodies := mapSet w.bodies startId (mkBodyFromOptions opt s) })
        (startId + 1) wp hworld₁ hfresh₁
        (fun q hq => hvalid q (by simp [hq]))
        (by rw [hplen₁]; simp [hbodies₁]; try omega)
        (by rw [hqlen₁]; simp [hbodies₁]; try omega)
    have hmsg : w.handleMessage step (.addBody startId opt) = .ok
        (PhysicsWorker.resizeArrays
          { w with bodies := mapSet w.bodies startId (mkBodyFromOptions opt s) }, []) := by
      show Except.bind (w.createBody startId opt)
        (fun w' => (Except.ok (w', []) :
          Except WorkerError (PhysicsWorker × List OutgoingMessage))) = _
      rw [hcreate]
      rfl
    refine ⟨w', ?_, hworld', ?_, ?_, ?_⟩
    · show processAll step w (.addBody startId opt :: createMsgs (startId + 1) rest) = _
      exact processAll_cons step w _ _ _ _ hmsg w' [] hproc
    · rw [hbodies', hbodies₁]
      simp [newBodyEntries, hbodyOf, List.append_assoc]
    · rw [hple', hplen₁, hbodies₁]
      simp
      omega
    · rw [hqle', hqlen₁, hbodies₁]
      simp
      omega

/-! ## C2 — dt clamping in the coordinator's update -/

/-- C2: the dt posted by the coordinator's `update()` equals the wall-clock
seconds elapsed since the previous `update()` call, except that an
elapsed time above 1/30 s is sent as exactly 1/30 s; the sent dt never
exceeds 1/30. -/
theorem c2_update_dt_clamped (c : PhysicsWorld) (now : ℚ) :
    ((c.update now).2 = .update (c.updateDt now)) ∧
    ((now - c.lastUpdateTime) / 1000 ≤ 1 / 30 →
      c.updateDt now = (now - c.lastUpdateTime) / 1000) ∧
    (1 / 30 < (now - c.lastUpdateTime) / 1000 → c.updateDt now = 1 / 30) ∧
    c.updateDt now ≤ 1 / 30 := by
  refine ⟨rfl, ?_, ?_, ?_⟩
  · intro h2
    show (if (now - c.lastUpdateTime) / 1000 > 1 / 30 then (1 : ℚ) / 30
      else (now - c.lastUpdateTime) / 1000) = (now - c.lastUpdateTime) / 1000
    split_ifs with h
    · linarith
    · rfl
  · intro h2
    show (if (now - c.lastUpdateTime) / 1000 > 1 / 30 then (1 : ℚ) / 30
      else (now - c.lastUpdateTime) / 1000) = 1 / 30
    split_ifs with h
    · rfl
    · linarith
  · show (if (now - c.lastUpdateTime) / 1000 > 1 / 30 then (1 : ℚ) / 30
      else (now - c.lastUpdateTime) / 1000) ≤ 1 / 30
    split_ifs with h
    · linarith
    · linarith

/-- Witness for C2 at a concrete state and time: 100 ms elapsed exceed
1/30 s, so the sent dt is exactly 1/30. -/
theorem c2_update_dt_clamped_witness :
    PhysicsWorld.initial.updateDt 100 = 1 / 30 :=
  (c2_update_dt_clamped PhysicsWorld.initial 100).2.2.1 (by norm_num [PhysicsWorld.initial])

/-! ## C5 — GetBodyProperties: silent non-response on unknown id -/

/-- C5: a `GetBodyProperties` query for an id missing from the live-body
registry emits no response at all — so folding the (empty) emitted
message list over any coordinator state leaves it, pending-query table
included, unchanged and the promise never resolves; for a registered id
exactly one response is emitted, tagged with the same request id.  The
worker state is untouched in both cases. -/
theorem c5_getBodyProps_response (w : PhysicsWorker) (id : ℕ) (reqId : String) :
    ((w.getBodyProps id reqId).1 = w) ∧
    (mapLookup w.bodies id = none →
      (w.getBodyProps id reqId).2 = [] ∧
      ∀ c : PhysicsWorld, List.foldl PhysicsWorld.handleMessage c (w.getBodyProps id reqId).2 = c) ∧
    (∀ b, mapLookup w.bodies id = some b →
      (w.getBodyProps id reqId).2 = [.bodyProps (bodyPropsOf b reqId)] ∧
      (bodyPropsOf b reqId).requestId = reqId) := by
  unfold PhysicsWorker.getBodyProps
  refine ⟨?_, ?_, ?_⟩
  · cases h : mapLookup w.bodies id <;> simp [h]
  · intro h
    simp [h]
  · intro b h
    simp [h, bodyPropsOf]

/-- Witness for C5: on a one-body worker, an unknown id (7) yields no
response, and the registered id (1) yields exactly one tagged
response. -/
theorem c5_getBodyProps_response_witness :
    (oneBodyWorker.getBodyProps 7 "q1").2 = [] ∧
    (oneBodyWorker.getBodyProps 1 "q2").2 = [.bodyProps (bodyPropsOf sphereBody "q2")] :=
  ⟨((c5_getBodyProps_response oneBodyWorker 7 "q1").2.1 (by rfl)).1,
   ((c5_getBodyProps_response oneBodyWorker 1 "q2").2.2 sphereBody (by rfl)).1⟩

/-! ## C7 — SetPosition / GetBodyProperties round trip -/

/-- C7: for a registered body, `SetPosition(id, p)` followed by
`GetBodyProperties(id)` (no `Update` in between) reports a position
exactly equal to `p`, and `SetPosition` also resets the body's
`previousPosition` and `interpolatedPosition` to `p`. -/
theorem c7_setPosition_readback (w : PhysicsWorker) (id : ℕ) (b : Body)
    (p : Vec3) (reqId : String) (hb : mapLookup w.bodies id = some b) :
    mapLookup (w.setPosition id p).bodies id =
      some { b with position := p, previousPosition := p, interpolatedPosition := p } ∧
    ((w.setPosition id p).getBodyProps id reqId).2 =
      [.bodyProps (bodyPropsOf
        { b with position := p, previousPosition := p, interpolatedPosition := p } reqId)] ∧
    (bodyPropsOf
      { b with position := p, previousPosition := p, interpolatedPosition := p }
      reqId).position = p := by
  have hmod : mapLookup (w.setPosition id p).bodies id =
      some { b with position := p, previousPosition := p, interpolatedPosition := p } := by
    unfold PhysicsWorker.setPosition
    rw [hb]
    simp [mapLookup_mapModify_self, hb]
  refine ⟨hmod, ?_, rfl⟩
  unfold PhysicsWorker.getBodyProps
  rw [hmod]

/-- Witness for C7 on the one-body worker: teleport body 1 to (3, 4, 5) and
read it back exactly. -/
theorem c7_setPosition_readback_witness :
    ((oneBodyWorker.setPosition 1 ⟨3, 4, 5⟩).getBodyProps 1 "q").2 =
      [.bodyProps (bodyPropsOf (sphereBodyAt ⟨3, 4, 5⟩) "q")] :=
  (c7_setPosition_readback oneBodyWorker 1 sphereBody ⟨3, 4, 5⟩ "q" (by rfl)).2.1

/-! ## C8 — RemoveBody: no-op on unknown id, idempotent -/

/-- C8: removing an id that is not in the registry leaves the worker state
(registry and world alike) unchanged and raises no error, and removal is
idempotent — a second `RemoveBody` of the same id has no further
effect. -/
theorem c8_removeBody_idempotent (w : PhysicsWorker) (id : ℕ) :
    (mapLookup w.bodies id = none → w.removeBody id = .ok w) ∧
    (∀ w₁, w.removeBody id = .ok w₁ → w₁.removeBody id = .ok w₁) := by
  constructor
  · intro h
    unfold PhysicsWorker.removeBody
    rw [h]
  · intro w₁ h
    unfold PhysicsWorker.removeBody at h ⊢
    cases hb : mapLookup w.bodies id with
    | none =>
      rw [hb] at h
      cases h
      rw [hb]
    | some b =>
      rw [hb] at h
      cases hw : w.world with
      | none => rw [hw] at h; cases h
      | some wp =>
        rw [hw] at h
        cases h
        simp [mapLookup_mapDelete_self]

/-- Witness for C8: removing the unknown id 9 from the one-body worker is a
no-op without error, and removing body 1 twice equals removing it
once. -/
theorem c8_removeBody_idempotent_witness :
    oneBodyWorker.removeBody 9 = .ok oneBodyWorker ∧
    ({ oneBodyWorker with bodies := mapDelete oneBodyWorker.bodies 1 } :
      PhysicsWorker).removeBody 1 =
      .ok { oneBodyWorker with bodies := mapDelete oneBodyWorker.bodies 1 } :=
  ⟨(c8_removeBody_idempotent oneBodyWorker 9).1 (by rfl),
   (c8_removeBody_idempotent oneBodyWorker 1).2
     { oneBodyWorker with bodies := mapDelete oneBodyWorker.bodies 1 } (by rfl)⟩

/-! ## C3 — the shape check is a presence (truthiness) check, not a
positivity check -/

/-- C3 (amended): with an initialized world, `CreateBody` raises a
configuration error if and only if the options are rejected by the
code's truthiness check — a Box with `size` absent, a Sphere with
`radius` absent **or zero**, or an unsupported shape tag.  Positivity of
the size vector / radius is not checked: any other options (including
e.g. a Box with a negative size) succeed, and the body is inserted into
the registry under the given id. -/
theorem c3_createBody_validation (w : PhysicsWorker) (wp : WorldParams)
    (hw : w.world = some wp) (id : ℕ) (o : PhysicsObjectOptions) :
    ((∃ msg, w.createBody id o = .error (.shapeConfig msg)) ↔ badShape o = true) ∧
    (badShape o = false →
      ∃ s w', mkShape o = .ok s ∧ w.createBody id o = .ok w' ∧
        mapLookup w'.bodies id = some (mkBodyFromOptions o s)) := by
  have hgood : badShape o = false →
      ∃ s w', mkShape o = .ok s ∧ w.createBody id o = .ok w' ∧
        mapLookup w'.bodies id = some (mkBodyFromOptions o s) := by
    intro h
    obtain ⟨s, hs⟩ := mkShape_good o h
    refine ⟨s, PhysicsWorker.resizeArrays
      { w with bodies := mapSet w.bodies id (mkBodyFromOptions o s) }, hs, ?_, ?_⟩
    · unfold PhysicsWorker.createBody
      rw [hs, hw]
      rfl
    · simp [PhysicsWorker.resizeArrays, mapLookup_mapSet_self]
  refine ⟨⟨?_, ?_⟩, hgood⟩
  · rintro ⟨msg, hmsg⟩
    by_contra hbad
    rw [Bool.not_eq_true] at hbad
    obtain ⟨s, w', hs, hok, _⟩ := hgood hbad
    rw [hok] at hmsg
    cases hmsg
  · intro h
    obtain ⟨msg, hmsg⟩ := mkShape_bad o h
    refine ⟨msg, ?_⟩
    unfold PhysicsWorker.createBody
    rw [hmsg]
    rfl

/-- Witness for C3 (amended) at concrete inputs: a sphere with radius 0 is
rejected with a configuration error, and a valid sphere is accepted and
registered. -/
theorem c3_createBody_validation_witness :
    (∃ msg, readyWorker.createBody 1
      ({ type := .sphere, mass := 1, position := ⟨0, 0, 0⟩, radius := some 0 } :
        PhysicsObjectOptions) = .error (.shapeConfig msg)) ∧
    (∃ s w', mkShape sphereOptions = .ok s ∧
      readyWorker.createBody 1 sphereOptions = .ok w' ∧
      mapLookup w'.bodies 1 = some (mkBodyFromOptions sphereOptions s)) :=
  ⟨((c3_createBody_validation readyWorker ⟨⟨0, -10, 0⟩, 10⟩ rfl 1
      { type := .sphere, mass := 1, position := ⟨0, 0, 0⟩, radius := some 0 }).1).2 rfl,
   (c3_createBody_validation readyWorker ⟨⟨0, -10, 0⟩, 10⟩ rfl 1 sphereOptions).2 rfl⟩

/-- Counterexample to C1's reading of C3 as stated: the options of a Box
whose size vector is negative in every component violate the positive-size
shape invariant, yet `CreateBody` raises no error and accepts them. -/
theorem c3_counterexample_negative_box :
    specShapeOk negBoxOptions = false ∧
    (readyWorker.createBody 1 negBoxOptions).isOk = true :=
  ⟨rfl, rfl⟩

/-! ## C4 — behaviour of commands arriving before Initialize -/

/-- C4 (amended): on the fresh, uninitialized worker, only `CreateBody`
(whose world insertion hits the undefined world, or whose shape check
throws first) and `Update` (which steps the undefined world) raise a
fatal error.  All body-addressed commands are processed without error as
silent no-ops, because the registry is empty before initialization, and
`GetBodyProperties` emits nothing. -/
theorem c4_preinit_commands (step : StepFn) (id : ℕ) (o : PhysicsObjectOptions)
    (dt : ℚ) (f imp p v : Vec3) (wpt : Option Vec3) (req tag : String) :
    ((PhysicsWorker.initial.handleMessage step (.addBody id o)).isOk = false) ∧
    ((PhysicsWorker.initial.handleMessage step (.update dt)).isOk = false) ∧
    (PhysicsWorker.initial.handleMessage step (.removeBody id) = .ok (.initial, [])) ∧
    (PhysicsWorker.initial.handleMessage step (.applyForce id f wpt) = .ok (.initial, [])) ∧
    (PhysicsWorker.initial.handleMessage step (.applyImpulse id imp wpt) = .ok (.initial, [])) ∧
    (PhysicsWorker.initial.handleMessage step (.setPosition id p) = .ok (.initial, [])) ∧
    (PhysicsWorker.initial.handleMessage step (.setVelocity id v) = .ok (.initial, [])) ∧
    (PhysicsWorker.initial.handleMessage step (.getBodyProps id req) = .ok (.initial, [])) ∧
    (PhysicsWorker.initial.handleMessage step (.unknownTag tag) = .ok (.initial, [])) := by
  refine ⟨?_, rfl, rfl, rfl, rfl, rfl, rfl, rfl, rfl⟩
  show ((PhysicsWorker.initial.createBody id o).bind
    (fun w' => (Except.ok (w', []) :
      Except WorkerError (PhysicsWorker × List OutgoingMessage)))).isOk = false
  unfold PhysicsWorker.createBody
  cases hs : mkShape o with
  | error e => rfl
  | ok s => rfl

/-- Counterexample to C4 as stated: a `RemoveBody` processed before any
`Initialize` is not a fatal precondition violation — it succeeds as a
silent no-op. -/
theorem c4_counterexample_preinit_remove :
    PhysicsWorker.initial.handleMessage stepId (.removeBody 1) = .ok (.initial, []) :=
  rfl

/-! ## C6 — Update steps once, emits one sync frame, reallocates buffers -/

/-- C6: an `Update(dt)` on an initialized worker (with the buffer-capacity
invariant the creates maintain) advances the world by exactly one step of
`dt`, emits exactly one `Sync` message whose frame is the registry
serialized in its current iteration order (the transferred buffers, which
may carry a stale tail beyond the registry's span when bodies were
removed since the last reallocation), and immediately replaces both
buffers with fresh zeroed arrays of exactly `3·liveBodyCount` and
`4·liveBodyCount` elements, so the transferred buffers are never written
again. -/
theorem c6_update_one_sync (step : StepFn) (w : PhysicsWorker) (dt : ℚ)
    (wp : WorldParams) (hw : w.world = some wp)
    (hp : 3 * (step dt w.bodies).length ≤ w.positions.length)
    (hq : 4 * (step dt w.bodies).length ≤ w.quaternions.length) :
    w.update step dt = .ok
      ({ w with
          bodies := step dt w.bodies,
          positions := List.replicate ((step dt w.bodies).length * 3) 0,
          quaternions := List.replicate ((step dt w.bodies).length * 4) 0 },
       [.sync
          (posFlat (step dt w.bodies) ++ w.positions.drop (3 * (step dt w.bodies).length))
          (quatFlat (step dt w.bodies) ++
            w.quaternions.drop (4 * (step dt w.bodies).length))]) :=
  PhysicsWorker.update_spec step w dt wp hw hp hq

/-- Witness for C6 on the one-body worker with the identity step. -/
theorem c6_update_one_sync_witness :
    oneBodyWorker.update stepId 1 = .ok
      ({ oneBodyWorker with
          bodies := stepId 1 oneBodyWorker.bodies,
          positions := List.replicate ((stepId 1 oneBodyWorker.bodies).length * 3) 0,
          quaternions := List.replicate ((stepId 1 oneBodyWorker.bodies).length * 4) 0 },
       [.sync
          (posFlat (stepId 1 oneBodyWorker.bodies) ++
            oneBodyWorker.positions.drop (3 * (stepId 1 oneBodyWorker.bodies).length))
          (quatFlat (stepId 1 oneBodyWorker.bodies) ++
            oneBodyWorker.quaternions.drop (4 * (stepId 1 oneBodyWorker.bodies).length))]) :=
  c6_update_one_sync stepId oneBodyWorker 1 ⟨⟨0, -10, 0⟩, 10⟩ rfl (by decide) (by decide)

/-! ## C9 — buffer capacity invariant: grow only, preserving contents -/

theorem except_bind_error {ε α β : Type} (e : ε) (f : α → Except ε β) :
    (Except.error e : Except ε α) >>= f = Except.error e := rfl

/-- C9: after every successful `CreateBody` the buffer capacities cover
`3·liveBodyCount` and `4·liveBodyCount`; the capacity check only ever
grows the buffers (`growArray` never shortens a list) and growing
preserves every previously written entry as a prefix, so in particular a
create leaves the old buffer contents intact for the next `Sync`
frame. -/
theorem c9_capacity_grow_preserve (w : PhysicsWorker) (id : ℕ)
    (o : PhysicsObjectOptions) (w' : PhysicsWorker)
    (hok : w.createBody id o = .ok w') (l : List ℚ) (n : ℕ) :
    (3 * w'.bodies.length ≤ w'.positions.length ∧
     4 * w'.bodies.length ≤ w'.quaternions.length) ∧
    (l.length ≤ (growArray l n).length) ∧
    ((growArray l n).take l.length = l) ∧
    (w.positions.length ≤ w'.positions.length ∧
     w'.positions.take w.positions.length = w.positions ∧
     w.quaternions.length ≤ w'.quaternions.length ∧
     w'.quaternions.take w.quaternions.length = w.quaternions) := by
  have hw' : w' = PhysicsWorker.resizeArrays
      { w with bodies := mapSet w.bodies id (bodyOf o) } := by
    unfold PhysicsWorker.createBody at hok
    cases hs : mkShape o with
    | error e =>
      rw [hs, except_bind_error] at hok
      simp at hok
    | ok s =>
      rw [hs, except_bind_ok] at hok
      cases hwo : w.world with
      | none =>
        rw [hwo] at hok
        simp at hok
      | some wp =>
        rw [hwo] at hok
        simp only [Except.ok.injEq] at hok
        rw [← hok, bodyOf, hs]
        rfl
  subst hw'
  refine ⟨⟨?_, ?_⟩, ?_, growArray_take l n, ?_, ?_, ?_, ?_⟩
  · simp [PhysicsWorker.resizeArrays, growArray_length]
    omega
  · simp [PhysicsWorker.resizeArrays, growArray_length]
    omega
  · rw [growArray_length]
    omega
  · simp [PhysicsWorker.resizeArrays, growArray_length]
    try omega
  · exact growArray_take _ _
  · simp [PhysicsWorker.resizeArrays, growArray_length]
    try omega
  · exact growArray_take _ _

/-- Witness for C9 at a concrete create (the sphere added to
`readyWorker`) and a concrete buffer. -/
theorem c9_capacity_grow_preserve_witness :
    (3 * oneBodyWorker.bodies.length ≤ oneBodyWorker.positions.length ∧
     4 * oneBodyWorker.bodies.length ≤ oneBodyWorker.quaternions.length) ∧
    (([(1 : ℚ), 2, 3] : List ℚ).length ≤ (growArray [1, 2, 3] 5).length) ∧
    ((growArray [(1 : ℚ), 2, 3] 5).take ([(1 : ℚ), 2, 3] : List ℚ).length = [1, 2, 3]) ∧
    (readyWorker.positions.length ≤ oneBodyWorker.positions.length ∧
     oneBodyWorker.positions.take readyWorker.positions.length = readyWorker.positions ∧
     readyWorker.quaternions.length ≤ oneBodyWorker.quaternions.length ∧
     oneBodyWorker.quaternions.take readyWorker.quaternions.length = readyWorker.quaternions) :=
  c9_capacity_grow_preserve readyWorker 1 sphereOptions oneBodyWorker rfl [1, 2, 3] 5

/-! ## C10 — a short frame updates a prefix and leaves the rest alone -/

/-- C10: when `OnSync` receives a frame of K entries (position buffer of
exactly 3K, quaternion buffer of exactly 4K) while the local registry
holds M > K objects, the first K objects are assigned the frame's
entries, every object at index ≥ K keeps its position and orientation,
and every buffer read performed for the updated objects is in bounds. -/
theorem c10_short_frame (c : PhysicsWorld) (ps qs : List ℚ) (K : ℕ)
    (d : ℕ × Object3D) (hp : ps.length = 3 * K) (hq : qs.length = 4 * K)
    (hM : K < c.objects.length) :
    ((c.handleMessage (.sync ps qs)).objects.length = c.objects.length) ∧
    (∀ j, K ≤ j →
      (c.handleMessage (.sync ps qs)).objects.getD j d = c.objects.getD j d) ∧
    (∀ j, j < K →
      (c.handleMessage (.sync ps qs)).objects.getD j d =
        ((c.objects.getD j d).1,
         { position := ⟨ps.getD (j * 3) 0, ps.getD (j * 3 + 1) 0, ps.getD (j * 3 + 2) 0⟩
           quaternion := ⟨qs.getD (j * 4) 0, qs.getD (j * 4 + 1) 0,
                          qs.getD (j * 4 + 2) 0, qs.getD (j * 4 + 3) 0⟩ })) ∧
    (∀ j, j < K → j * 3 + 2 < ps.length ∧ j * 4 + 3 < qs.length) := by
  have hobjs : (c.handleMessage (.sync ps qs)).objects = updateLoop c.objects 0 ps qs := rfl
  refine ⟨?_, ?_, ?_, ?_⟩
  · rw [hobjs, updateLoop_length]
  · intro j hj
    rw [hobjs]
    rcases Nat.lt_or_ge j c.objects.length with hlt | hge
    · rw [updateLoop_getD c.objects 0 j ps qs d hlt]
      unfold updateObjAt
      rw [if_neg]
      intro hcon
      rw [hp] at hcon
      omega
    · rw [List.getD_eq_default _ _ (by rw [updateLoop_length]; exact hge),
        List.getD_eq_default _ _ hge]
  · intro j hj
    rw [hobjs, updateLoop_getD c.objects 0 j ps qs d (by omega)]
    unfold updateObjAt
    rw [if_pos (by constructor <;> [rw [hp]; rw [hq]] <;> omega)]
    simp only [Nat.zero_add]
  · intro j hj
    constructor <;> [rw [hp]; rw [hq]] <;> omega

/-- Witness for C10: a two-object registry receiving a one-entry frame —
object 0 takes the frame values, object 1 keeps its transform. -/
theorem c10_short_frame_witness :
    (({ objects := [(1, ⟨⟨0, 0, 0⟩, ⟨0, 0, 0, 1⟩⟩), (2, ⟨⟨5, 5, 5⟩, ⟨0, 0, 0, 1⟩⟩)],
        nextBodyId := 3, lastUpdateTime := 0, bodyPropsCallbacks := [] } :
      PhysicsWorld).handleMessage (.sync [10, 20, 30] [1, 2, 3, 4])).objects.getD 1
        (0, ⟨⟨0, 0, 0⟩, ⟨0, 0, 0, 1⟩⟩) =
      ([(1, (⟨⟨0, 0, 0⟩, ⟨0, 0, 0, 1⟩⟩ : Object3D)), (2, ⟨⟨5, 5, 5⟩, ⟨0, 0, 0, 1⟩⟩)]).getD 1
        (0, ⟨⟨0, 0, 0⟩, ⟨0, 0, 0, 1⟩⟩) :=
  (c10_short_frame
    { objects := [(1, ⟨⟨0, 0, 0⟩, ⟨0, 0, 0, 1⟩⟩), (2, ⟨⟨5, 5, 5⟩, ⟨0, 0, 0, 1⟩⟩)],
      nextBodyId := 3, lastUpdateTime := 0, bodyPropsCallbacks := [] }
    [10, 20, 30] [1, 2, 3, 4] 1 (0, ⟨⟨0, 0, 0⟩, ⟨0, 0, 0, 1⟩⟩)
    rfl rfl (by decide)).2.1 1 (by decide)

/-! ## C1 — N creates, one update: the frame has exactly N entries and the
i-th entry round-trips to the i-th renderable -/

/-- C1: starting from fresh coordinator and worker, any sequence of N valid
`CreateBody` commands (no `RemoveBody`) followed by one `Update` makes
the worker emit a `Sync` frame of exactly N position triples and N
quaternion quadruples, serialized in creation order; the coordinator's
`OnSync` then assigns the i-th frame entry to the i-th object added, so
each renderable receives exactly the post-step transform of its own
body.  `step` is the engine's black-box step, which mutates the
registered bodies in place and therefore preserves the registry's
length. -/
theorem c1_create_sync_roundtrip (step : StepFn)
    (hstep : ∀ dt bs, (step dt bs).length = bs.length)
    (pairs : List (Object3D × PhysicsObjectOptions))
    (hvalid : ∀ pr ∈ pairs, badShape pr.2 = false)
    (dt : ℚ) (g : Vec3) (its : Option ℕ) (d : ℕ × Object3D) (dB : ℕ × Body) :
    ∃ (w₁ w₂ : PhysicsWorker) (P Q : List ℚ),
      processAll step (PhysicsWorker.initial.init g its)
          (addObjects PhysicsWorld.initial pairs).2 = .ok (w₁, []) ∧
      w₁.bodies = newBodyEntries 1 pairs ∧
      w₁.update step dt = .ok (w₂, [.sync P Q]) ∧
      P.length = 3 * pairs.length ∧
      Q.length = 4 * pairs.length ∧
      P = posFlat (step dt w₁.bodies) ∧
      Q = quatFlat (step dt w₁.bodies) ∧
      ((addObjects PhysicsWorld.initial pairs).1.handleMessage
          (.sync P Q)).objects.length = pairs.length ∧
      ∀ j, j < pairs.length →
        ((addObjects PhysicsWorld.initial pairs).1.handleMessage
            (.sync P Q)).objects.getD j d =
          (((addObjects PhysicsWorld.initial pairs).1.objects.getD j d).1,
           { position := ((step dt w₁.bodies).getD j dB).2.position
             quaternion := ((step dt w₁.bodies).getD j dB).2.quaternion }) := by
  obtain ⟨w₁, hproc, hworld, hbodies, hplen, hqlen⟩ :=
    processCreates_spec step pairs (PhysicsWorker.initial.init g its) 1
      ⟨g, its.getD 10⟩ rfl
      (by intro p hp; simp [PhysicsWorker.initial, PhysicsWorker.init] at hp)
      hvalid
      (by simp [PhysicsWorker.initial, PhysicsWorker.init])
      (by simp [PhysicsWorker.initial, PhysicsWorker.init])
  have hbodies' : w₁.bodies = newBodyEntries 1 pairs := by
    rw [hbodies]
    simp [PhysicsWorker.initial, PhysicsWorker.init]
  have hbl : w₁.bodies.length = pairs.length := by
    rw [hbodies', newBodyEntries_length]
  have hpl : w₁.positions.length = pairs.length * 3 := by
    rw [hplen]
    simp [PhysicsWorker.initial, PhysicsWorker.init]
  have hql : w₁.quaternions.length = pairs.length * 4 := by
    rw [hqlen]
    simp [PhysicsWorker.initial, PhysicsWorker.init]
  have hsl : (step dt w₁.bodies).length = pairs.length := by
    rw [hstep, hbl]
  have hupd := PhysicsWorker.update_spec step w₁ dt ⟨g, its.getD 10⟩ hworld
    (by rw [hsl, hpl]; omega) (by rw [hsl, hql]; omega)
  have hdropP : w₁.positions.drop (3 * (step dt w₁.bodies).length) = [] :=
    List.drop_eq_nil_of_le (by rw [hsl, hpl]; omega)
  have hdropQ : w₁.quaternions.drop (4 * (step dt w₁.bodies).length) = [] :=
    List.drop_eq_nil_of_le (by rw [hsl, hql]; omega)
  rw [hdropP, hdropQ, List.append_nil, List.append_nil] at hupd
  have hco := addObjects_spec pairs PhysicsWorld.initial
    (by intro p hp; simp [PhysicsWorld.initial] at hp)
  have hcobj : (addObjects PhysicsWorld.initial pairs).1.objects =
      newObjEntries 1 pairs := by
    rw [hco.1]
    simp [PhysicsWorld.initial]
  have hcmsg : (addObjects PhysicsWorld.initial pairs).2 = createMsgs 1 pairs := by
    rw [hco.2]
    simp [PhysicsWorld.initial]
  have hcolen : (addObjects PhysicsWorld.initial pairs).1.objects.length =
      pairs.length := by
    rw [hcobj, newObjEntries_length]
  refine ⟨w₁, _, posFlat (step dt w₁.bodies), quatFlat (step dt w₁.bodies),
    ?_, hbodies', hupd, ?_, ?_, rfl, rfl, ?_, ?_⟩
  · rw [hcmsg]
    exact hproc
  · rw [posFlat_length, hsl]
  · rw [quatFlat_length, hsl]
  · show (updateLoop (addObjects PhysicsWorld.initial pairs).1.objects 0
      (posFlat (step dt w₁.bodies)) (quatFlat (step dt w₁.bodies))).length = _
    rw [updateLoop_length, hcolen]
  · intro j hj
    have hjlt : j < (addObjects PhysicsWorld.initial pairs).1.objects.length := by
      rw [hcolen]
      omega
    show (updateLoop (addObjects PhysicsWorld.initial pairs).1.objects 0
        (posFlat (step dt w₁.bodies)) (quatFlat (step dt w₁.bodies))).getD j d = _
    rw [updateLoop_getD _ 0 j _ _ d hjlt]
    have hguard : (0 + j) * 3 < (posFlat (step dt w₁.bodies)).length ∧
        (0 + j) * 4 < (quatFlat (step dt w₁.bodies)).length := by
      rw [posFlat_length, quatFlat_length, hsl]
      omega
    unfold updateObjAt
    rw [if_pos hguard]
    simp only [Nat.zero_add]
    have hjN : j < (step dt w₁.bodies).length := by
      rw [hsl]
      omega
    have hx := posFlat_getD (step dt w₁.bodies) j 0 dB hjN (by omega)
    have hy := posFlat_getD (step dt w₁.bodies) j 1 dB hjN (by omega)
    have hz := posFlat_getD (step dt w₁.bodies) j 2 dB hjN (by omega)
    have hqx := quatFlat_getD (step dt w₁.bodies) j 0 dB hjN (by omega)
    have hqy := quatFlat_getD (step dt w₁.bodies) j 1 dB hjN (by omega)
    have hqz := quatFlat_getD (step dt w₁.bodies) j 2 dB hjN (by omega)
    have hqw := quatFlat_getD (step dt w₁.bodies) j 3 dB hjN (by omega)
    simp only [posTriple, quatQuad, List.getD_cons_zero, List.getD_cons_succ,
      Nat.add_zero] at hx hy hz hqx hqy hqz hqw
    rw [hx, hy, hz, hqx, hqy, hqz, hqw]

/-- Witness for C1: one valid plane body, identity step, zero dt. -/
theorem c1_create_sync_roundtrip_witness :
    ∃ (w₁ w₂ : PhysicsWorker) (P Q : List ℚ),
      processAll stepId (PhysicsWorker.initial.init ⟨0, -10, 0⟩ none)
          (addObjects PhysicsWorld.initial [(unitObj, planeOptions)]).2 = .ok (w₁, []) ∧
      w₁.bodies = newBodyEntries 1 [(unitObj, planeOptions)] ∧
      w₁.update stepId 0 = .ok (w₂, [.sync P Q]) ∧
      P.length = 3 * [(unitObj, planeOptions)].length ∧
      Q.length = 4 * [(unitObj, planeOptions)].length ∧
      P = posFlat (stepId 0 w₁.bodies) ∧
      Q = quatFlat (stepId 0 w₁.bodies) ∧
      ((addObjects PhysicsWorld.initial [(unitObj, planeOptions)]).1.handleMessage
          (.sync P Q)).objects.length = [(unitObj, planeOptions)].length ∧
      ∀ j, j < [(unitObj, planeOptions)].length →
        ((addObjects PhysicsWorld.initial [(unitObj, planeOptions)]).1.handleMessage
            (.sync P Q)).objects.getD j defaultObjEntry =
          (((addObjects PhysicsWorld.initial
              [(unitObj, planeOptions)]).1.objects.getD j defaultObjEntry).1,
           { position := ((stepId 0 w₁.bodies).getD j defaultBodyEntry).2.position
             quaternion := ((stepId 0 w₁.bodies).getD j defaultBodyEntry).2.quaternion }) :=
  c1_create_sync_roundtrip stepId (fun _ _ => rfl) [(unitObj, planeOptions)]
    (by decide) 0 ⟨0, -10, 0⟩ none defaultObjEntry defaultBodyEntry

end ThreeBase
